import Mathlib

/-!
# Verification of the Golf card game engine

Shallow embedding of the game engine in `business/game.go` and the
per-viewer state projection in `service/game_handler.go` of the
`golf-card-game` repository, together with proofs about the frozen
specification claims.

Go's in-place mutating methods that return an `error` are modelled as
pure functions `State → args → State × Option GameError`: every
`return err` in the Go source corresponds to returning the current
(unchanged) state paired with `some err`, and the normal return
corresponds to the mutated state paired with `none`.

Go `[6]CardDef` / `[6]bool` arrays are modelled as Lean lists (indexed
reads become `List.getD`, writes become `List.set`); Go slices are
lists; Go `int` is `Int` where negative values matter (card indices,
`FinalRoundTurns`, scores, `Version`) and `Nat` for the always
non-negative `CurrentTurnIdx` and `InitialFlips`.
-/

/-- A playing card, from `CardDef` in `business/game.go`:
`Suit` ∈ {hearts, diamonds, clubs, spades, joker}, `Rank` ∈ {A, 2..10, J, Q, K, Joker}. -/
structure CardDef where
  suit : String
  rank : String
deriving DecidableEq, Repr, Inhabited

/-- The game phase, from the `GamePhase` string constants in `business/game.go`
(`initial_flip`, `main_game`, `final_round`, `finished`). -/
inductive GamePhase where
  | initialFlip
  | mainGame
  | finalRound
  | finished
deriving DecidableEq, Repr, Inhabited

/-- The string value of a phase, as stored in the Go `GamePhase` string type. -/
def GamePhase.toString : GamePhase → String
  | .initialFlip => "initial_flip"
  | .mainGame => "main_game"
  | .finalRound => "final_round"
  | .finished => "finished"

/-- A single player's state, from `PlayerState` in `business/game.go`.
`hand` models the `[6]CardDef` array and `faceUp` the `[6]bool` array. -/
structure PlayerState where
  userID : String
  hand : List CardDef
  faceUp : List Bool
  initialFlips : Nat
  allCardsFlipped : Bool
deriving DecidableEq, Repr, Inhabited

/-- The complete state of a game, from `FullGameState` in `business/game.go`. -/
structure FullGameState where
  gameID : Int
  phase : GamePhase
  deck : List CardDef
  discardPile : List CardDef
  players : List PlayerState
  currentTurnIdx : Nat
  drawnCard : Option CardDef
  triggerPlayerIdx : Option Nat
  finalRoundTurns : Int
  version : Int
deriving DecidableEq, Repr, Inhabited

/-- The typed rule-violation errors from the `errors.New` values in
`business/game.go` (plus the player-not-found and flip-count errors created
inline, and the two-players requirement of `InitializeGame`). -/
inductive GameError where
  | notYourTurn
  | invalidPhase
  | invalidCardIndex
  | cardAlreadyFaceUp
  | invalidInitialFlip
  | noDrawnCard
  | cardAlreadyDrawn
  | emptyDeck
  | emptyDiscard
  | playerNotFound
  | alreadyFlippedTwo
deriving DecidableEq, Repr

/-- The 54-card deck in construction order from `createDeck` in
`business/game.go` (before the Fisher–Yates shuffle): 13 ranks for each of
the four suits, then two jokers. -/
def createDeckBase : List CardDef :=
  let suits := ["hearts", "diamonds", "clubs", "spades"]
  let ranks := ["A", "2", "3", "4", "5", "6", "7", "8", "9", "10", "J", "Q", "K"]
  (suits.flatMap (fun suit => ranks.map (fun rank => ⟨suit, rank⟩)))
    ++ [⟨"joker", "Joker"⟩, ⟨"joker", "Joker"⟩]

/-- `InitializeGame` from `business/game.go`, parameterised by the shuffled
deck (the Go code obtains it from `createDeck`, a Fisher–Yates shuffle of
`createDeckBase` with cryptographically random indices; a shuffle is a
permutation, so only the multiset of cards is determined). Deals 6 cards to
each of the 2 players from the top of the deck, seeds the discard pile with
the next card, and starts in `initial_flip` with `Version = 1`.
Returns `none` where the Go code returns an error (not exactly 2 players)
or would panic (deck too short to deal). -/
def initializeGame (gameID : Int) (playerUserIDs : List String) (deck : List CardDef) :
    Option FullGameState :=
  if playerUserIDs.length ≠ 2 then none
  else
    let hand0 := deck.take 6
    let deck1 := deck.drop 6
    let hand1 := deck1.take 6
    let deck2 := deck1.drop 6
    match deck2 with
    | [] => none
    | discardTop :: deck3 =>
      some
        { gameID := gameID
          phase := .initialFlip
          deck := deck3
          discardPile := [discardTop]
          players :=
            [ { userID := playerUserIDs.getD 0 ""
                hand := hand0
                faceUp := [false, false, false, false, false, false]
                initialFlips := 0
                allCardsFlipped := false },
              { userID := playerUserIDs.getD 1 ""
                hand := hand1
                faceUp := [false, false, false, false, false, false]
                initialFlips := 0
                allCardsFlipped := false } ]
          currentTurnIdx := 0
          drawnCard := none
          triggerPlayerIdx := none
          finalRoundTurns := 0
          version := 1 }

/-- The scan of `findPlayerIndex` in `business/game.go`, carrying the
running index. -/
def findPlayerIndexAux : List PlayerState → String → Nat → Option Nat
  | [], _, _ => none
  | p :: rest, userID, i =>
    if p.userID = userID then some i else findPlayerIndexAux rest userID (i + 1)

/-- `findPlayerIndex` from `business/game.go`: index of the player with the
given userID, `none` when absent (the Go code returns `-1` and an error). -/
def findPlayerIndex (state : FullGameState) (userID : String) : Option Nat :=
  findPlayerIndexAux state.players userID 0

/-- Replace player `i` in the state (the Go code mutates
`state.Players[i]` through a pointer). -/
def setPlayer (state : FullGameState) (i : Nat) (p : PlayerState) : FullGameState :=
  { state with players := state.players.set i p }

/-- `checkAllCardsFlipped` from `business/game.go`: true when every entry of
`faceUp` is true. -/
def checkAllCardsFlipped (player : PlayerState) : Bool :=
  player.faceUp.all (fun b => b)

/-- `hasTopRow` computed by the loop in `InitialFlipCard`: some face-up card
among indices 0–2. -/
def hasTopRow (player : PlayerState) : Bool :=
  (List.range 3).any (fun i => player.faceUp.getD i false)

/-- `hasBottomRow` computed by the loop in `InitialFlipCard`: some face-up
card among indices 3–5. -/
def hasBottomRow (player : PlayerState) : Bool :=
  (List.range 3).any (fun i => player.faceUp.getD (i + 3) false)

/-- `InitialFlipCard` from `business/game.go`. -/
def initialFlipCard (state : FullGameState) (userID : String) (cardIndex : Int) :
    FullGameState × Option GameError :=
  if state.phase ≠ GamePhase.initialFlip then (state, some .invalidPhase)
  else
    match findPlayerIndex state userID with
    | none => (state, some .playerNotFound)
    | some playerIdx =>
      if cardIndex < 0 ∨ cardIndex > 5 then (state, some .invalidCardIndex)
      else
        let idx := cardIndex.toNat
        let player := state.players.getD playerIdx default
        if player.faceUp.getD idx false then (state, some .cardAlreadyFaceUp)
        else if player.initialFlips ≥ 2 then (state, some .alreadyFlippedTwo)
        else if player.initialFlips = 1 ∧ cardIndex < 3 ∧ hasTopRow player then
          (state, some .invalidInitialFlip)
        else if player.initialFlips = 1 ∧ cardIndex ≥ 3 ∧ hasBottomRow player then
          (state, some .invalidInitialFlip)
        else
          let player' :=
            { player with
              faceUp := player.faceUp.set idx true
              initialFlips := player.initialFlips + 1 }
          let state1 := setPlayer state playerIdx player'
          let allPlayersReady := state1.players.all (fun p => p.initialFlips ≥ 2)
          if allPlayersReady then
            ({ state1 with phase := .mainGame, currentTurnIdx := 0 }, none)
          else (state1, none)

/-- `DrawFromDeck` from `business/game.go`. -/
def drawFromDeck (state : FullGameState) (userID : String) :
    FullGameState × Option GameError :=
  if state.phase ≠ GamePhase.mainGame ∧ state.phase ≠ GamePhase.finalRound then
    (state, some .invalidPhase)
  else
    match findPlayerIndex state userID with
    | none => (state, some .playerNotFound)
    | some playerIdx =>
      if playerIdx ≠ state.currentTurnIdx then (state, some .notYourTurn)
      else if state.drawnCard.isSome then (state, some .cardAlreadyDrawn)
      else
        match state.deck with
        | [] => (state, some .emptyDeck)
        | top :: rest => ({ state with drawnCard := some top, deck := rest }, none)

/-- `DrawFromDiscard` from `business/game.go`: the top of the discard pile is
its last element. -/
def drawFromDiscard (state : FullGameState) (userID : String) :
    FullGameState × Option GameError :=
  if state.phase ≠ GamePhase.mainGame ∧ state.phase ≠ GamePhase.finalRound then
    (state, some .invalidPhase)
  else
    match findPlayerIndex state userID with
    | none => (state, some .playerNotFound)
    | some playerIdx =>
      if playerIdx ≠ state.currentTurnIdx then (state, some .notYourTurn)
      else if state.drawnCard.isSome then (state, some .cardAlreadyDrawn)
      else
        match state.discardPile.getLast? with
        | none => (state, some .emptyDiscard)
        | some top =>
          ({ state with drawnCard := some top, discardPile := state.discardPile.dropLast },
            none)

/-- `endTurn` from `business/game.go`: triggers the final round when the
just-acted player has all cards face-up during `main_game`, then (still in
the same call) decrements `FinalRoundTurns` whenever the phase is
`final_round`, finishing the game when the counter goes negative, and
finally advances the turn. The Go method always returns a nil error, so it
is modelled as returning only the state. -/
def endTurn (state : FullGameState) (currentPlayerIdx : Nat) : FullGameState :=
  let player := state.players.getD currentPlayerIdx default
  let state1 :=
    if player.allCardsFlipped ∧ state.phase = GamePhase.mainGame then
      { state with
        phase := .finalRound
        triggerPlayerIdx := some currentPlayerIdx
        finalRoundTurns := (state.players.length : Int) - 1 }
    else state
  let state2 :=
    if state1.phase = GamePhase.finalRound then
      if state1.finalRoundTurns - 1 < 0 then
        { state1 with finalRoundTurns := state1.finalRoundTurns - 1, phase := .finished }
      else { state1 with finalRoundTurns := state1.finalRoundTurns - 1 }
    else state1
  { state2 with currentTurnIdx := (state2.currentTurnIdx + 1) % state2.players.length }

/-- The successful body of `SwapCard` (everything between the validations and
the `endTurn` call): put the drawn card at `idx` face-up, push the replaced
card on the discard pile, clear the drawn card, recompute `AllCardsFlipped`. -/
def swapApply (state : FullGameState) (playerIdx : Nat) (drawn : CardDef) (idx : Nat) :
    FullGameState :=
  let player := state.players.getD playerIdx default
  let oldCard := player.hand.getD idx default
  let player1 :=
    { player with
      hand := player.hand.set idx drawn
      faceUp := player.faceUp.set idx true }
  let player2 := { player1 with allCardsFlipped := checkAllCardsFlipped player1 }
  { setPlayer state playerIdx player2 with
    discardPile := state.discardPile ++ [oldCard]
    drawnCard := none }

/-- `SwapCard` from `business/game.go`. -/
def swapCard (state : FullGameState) (userID : String) (cardIndex : Int) :
    FullGameState × Option GameError :=
  if state.phase ≠ GamePhase.mainGame ∧ state.phase ≠ GamePhase.finalRound then
    (state, some .invalidPhase)
  else
    match findPlayerIndex state userID with
    | none => (state, some .playerNotFound)
    | some playerIdx =>
      if playerIdx ≠ state.currentTurnIdx then (state, some .notYourTurn)
      else
        match state.drawnCard with
        | none => (state, some .noDrawnCard)
        | some drawn =>
          if cardIndex < 0 ∨ cardIndex > 5 then (state, some .invalidCardIndex)
          else (endTurn (swapApply state playerIdx drawn cardIndex.toNat) playerIdx, none)

/-- The successful body of `DiscardAndFlip`: push the drawn card on the
discard pile, clear it, flip the chosen face-down card, recompute
`AllCardsFlipped`. -/
def discardFlipApply (state : FullGameState) (playerIdx : Nat) (drawn : CardDef) (idx : Nat) :
    FullGameState :=
  let player := state.players.getD playerIdx default
  let player1 := { player with faceUp := player.faceUp.set idx true }
  let player2 := { player1 with allCardsFlipped := checkAllCardsFlipped player1 }
  { setPlayer state playerIdx player2 with
    discardPile := state.discardPile ++ [drawn]
    drawnCard := none }

/-- `DiscardAndFlip` from `business/game.go`. -/
def discardAndFlip (state : FullGameState) (userID : String) (cardIndex : Int) :
    FullGameState × Option GameError :=
  if state.phase ≠ GamePhase.mainGame ∧ state.phase ≠ GamePhase.finalRound then
    (state, some .invalidPhase)
  else
    match findPlayerIndex state userID with
    | none => (state, some .playerNotFound)
    | some playerIdx =>
      if playerIdx ≠ state.currentTurnIdx then (state, some .notYourTurn)
      else
        match state.drawnCard with
        | none => (state, some .noDrawnCard)
        | some drawn =>
          if cardIndex < 0 ∨ cardIndex > 5 then (state, some .invalidCardIndex)
          else
            let player := state.players.getD playerIdx default
            if player.faceUp.getD cardIndex.toNat false then (state, some .cardAlreadyFaceUp)
            else (endTurn (discardFlipApply state playerIdx drawn cardIndex.toNat) playerIdx, none)

/-- `getCardValue` from `business/game.go`: A=1, 2–10 face value, J/Q/K=10,
Joker=−2, anything else 0 (the Go `default` case). -/
def getCardValue (card : CardDef) : Int :=
  if card.rank = "A" then 1
  else if card.rank = "2" then 2
  else if card.rank = "3" then 3
  else if card.rank = "4" then 4
  else if card.rank = "5" then 5
  else if card.rank = "6" then 6
  else if card.rank = "7" then 7
  else if card.rank = "8" then 8
  else if card.rank = "9" then 9
  else if card.rank = "10" then 10
  else if card.rank = "J" ∨ card.rank = "Q" ∨ card.rank = "K" then 10
  else if card.rank = "Joker" then -2
  else 0

/-- The contribution of one column (top index `col`, bottom index `col + 3`)
in the loop of `CalculateScore`: 0 when both cards are face-up with equal
ranks (`continue` in the Go source), otherwise each face-up card adds its
value. -/
def columnScore (player : PlayerState) (col : Nat) : Int :=
  let topIdx := col
  let bottomIdx := col + 3
  let topCard := player.hand.getD topIdx default
  let bottomCard := player.hand.getD bottomIdx default
  if player.faceUp.getD topIdx false ∧ player.faceUp.getD bottomIdx false ∧
      topCard.rank = bottomCard.rank then 0
  else
    (if player.faceUp.getD topIdx false then getCardValue topCard else 0) +
    (if player.faceUp.getD bottomIdx false then getCardValue bottomCard else 0)

/-- `CalculateScore` from `business/game.go`: total over the 3 columns. -/
def CalculateScore (player : PlayerState) : Int :=
  (List.range 3).foldl (fun total col => total + columnScore player col) 0

/-- The per-player part of `flipRemainingCards`: every card becomes face-up. -/
def flipAllPlayer (player : PlayerState) : PlayerState :=
  { player with
    faceUp := player.faceUp.map (fun _ => true)
    allCardsFlipped := true }

/-- `flipRemainingCards` from `business/game.go`. -/
def flipRemainingCards (state : FullGameState) : FullGameState :=
  { state with players := state.players.map flipAllPlayer }

/-- Go's maximum `int` value, `int(^uint(0) >> 1)`, used by `FinishGame` as
the initial lowest score. -/
def goMaxInt : Int := 9223372036854775807

/-- The winner-selection loop of `FinishGame`: scan players in order, keeping
the player whose score is strictly below the lowest seen so far. -/
def finishWinnerAux : List PlayerState → Int → String → String
  | [], _, winner => winner
  | p :: rest, lowest, winner =>
    let score := CalculateScore p
    if score < lowest then finishWinnerAux rest score p.userID
    else finishWinnerAux rest lowest winner

/-- The pure part of `FinishGame` from `business/game.go` (the database
writes of the scores and winner are outside the state machine): requires
phase `finished`, flips all remaining cards, and returns the winner userID
selected by the strict-minimum scan. -/
def finishGameWinner (state : FullGameState) : Option String :=
  if state.phase ≠ GamePhase.finished then none
  else
    let state1 := flipRemainingCards state
    some (finishWinnerAux state1.players goMaxInt "")

/-- A card as rendered to the frontend, from `Card` in
`service/game_handler.go`: `"back"`/`"hidden"` for face-down cards. -/
structure Card where
  suit : String
  value : String
  index : Int
deriving DecidableEq, Repr, Inhabited

/-- The state-derived part of `GameStatePayload` from
`service/game_handler.go`. The fields taken from the database rows
(`publicId`, `status`, `players` with usernames/scores, `currentUserId`)
carry no information from `FullGameState` and are omitted. -/
structure GameStatePayload where
  phase : String
  currentPlayerID : String
  currentTurn : Nat
  yourCards : List Card
  opponentCards : List Card
  drawnCard : Option Card
  discardTopCard : Option Card
  deckCount : Nat
deriving DecidableEq, Repr, Inhabited

/-- The card-rendering loop of `buildGameStatePayload`: each of the six grid
positions shows the actual suit/rank when face-up and the
`"back"`/`"hidden"` placeholder when face-down. -/
def renderCards (player : PlayerState) : List Card :=
  (List.range 6).map (fun i =>
    if player.faceUp.getD i false then
      { suit := (player.hand.getD i default).suit
        value := (player.hand.getD i default).rank
        index := (i : Int) }
    else
      { suit := "back", value := "hidden", index := (i : Int) })

/-- `currentPlayerID` as computed in `buildGameStatePayload`:
`state.Players[state.CurrentTurnIdx].UserID` when there are players, the
empty string otherwise. -/
def currentPlayerID (state : FullGameState) : String :=
  if state.players.length > 0 then
    (state.players.getD state.currentTurnIdx default).userID
  else ""

/-- The `yourCards`/`opponentCards` assignment loop of
`buildGameStatePayload`: for each player in order, the rendered cards
overwrite `yourCards` when the player is the viewer and `opponentCards`
otherwise. -/
def assignCards (players : List PlayerState) (viewerUserID : String)
    (acc : List Card × List Card) : List Card × List Card :=
  players.foldl
    (fun acc player =>
      let cards := renderCards player
      if player.userID = viewerUserID then (cards, acc.2) else (acc.1, cards))
    acc

/-- `buildGameStatePayload` from `service/game_handler.go` (the non-nil-state
branch), restricted to the fields derived from `FullGameState`. The pending
drawn card is rendered only when the viewer is the current-turn player. -/
def buildGameStatePayload (state : FullGameState) (viewerUserID : String) :
    GameStatePayload :=
  let pair := assignCards state.players viewerUserID ([], [])
  let drawn : Option Card :=
    match state.drawnCard with
    | some c =>
      if currentPlayerID state = viewerUserID then
        some { suit := c.suit, value := c.rank, index := -1 }
      else none
    | none => none
  let discardTop : Option Card :=
    match state.discardPile.getLast? with
    | some c => some { suit := c.suit, value := c.rank, index := -1 }
    | none => none
  { phase := state.phase.toString
    currentPlayerID := currentPlayerID state
    currentTurn := state.currentTurnIdx
    yourCards := pair.1
    opponentCards := pair.2
    drawnCard := drawn
    discardTopCard := discardTop
    deckCount := state.deck.length }

/-! ## Helper lemmas about the operations -/

theorem sum_map_set_eq {α : Type} (f : α → Nat) (d : α) :
    ∀ (l : List α) (i : Nat) (p : α), f p = f (l.getD i d) →
      ((l.set i p).map f).sum = (l.map f).sum
  | [], _, _, _ => rfl
  | a :: t, 0, p, h => by
    simp only [List.getD, List.getElem?_cons_zero, Option.getD_some] at h
    simp [h]
  | a :: t, i + 1, p, h => by
    simp only [List.getD_cons_succ] at h
    simp only [List.set_cons_succ, List.map_cons, List.sum_cons]
    rw [sum_map_set_eq f d t i p h]

theorem findPlayerIndexAux_bounds :
    ∀ (l : List PlayerState) (uid : String) (k i : Nat),
      findPlayerIndexAux l uid k = some i → k ≤ i ∧ i - k < l.length
  | [], _, _, _, h => by simp [findPlayerIndexAux] at h
  | p :: t, uid, k, i, h => by
    unfold findPlayerIndexAux at h
    split at h
    · cases h
      simp
    · have := findPlayerIndexAux_bounds t uid (k + 1) i h
      refine ⟨by omega, ?_⟩
      simp only [List.length_cons]
      omega

theorem findPlayerIndex_lt (s : FullGameState) (uid : String) (i : Nat)
    (h : findPlayerIndex s uid = some i) : i < s.players.length := by
  have := findPlayerIndexAux_bounds s.players uid 0 i h
  omega

theorem endTurn_fields (s : FullGameState) (i : Nat) :
    (endTurn s i).deck = s.deck ∧ (endTurn s i).discardPile = s.discardPile ∧
    (endTurn s i).players = s.players ∧ (endTurn s i).drawnCard = s.drawnCard ∧
    (endTurn s i).version = s.version ∧ (endTurn s i).gameID = s.gameID := by
  simp only [endTurn]
  repeat' split
  all_goals simp_all

/-! ## Version preservation by the five operations -/

theorem initialFlipCard_version (s : FullGameState) (uid : String) (i : Int) :
    (initialFlipCard s uid i).1.version = s.version := by
  simp only [initialFlipCard]
  repeat' split
  all_goals simp [setPlayer]

theorem drawFromDeck_version (s : FullGameState) (uid : String) :
    (drawFromDeck s uid).1.version = s.version := by
  simp only [drawFromDeck]
  repeat' split
  all_goals simp

theorem drawFromDiscard_version (s : FullGameState) (uid : String) :
    (drawFromDiscard s uid).1.version = s.version := by
  simp only [drawFromDiscard]
  repeat' split
  all_goals simp

theorem swapCard_version (s : FullGameState) (uid : String) (i : Int) :
    (swapCard s uid i).1.version = s.version := by
  simp only [swapCard]
  repeat' split
  all_goals simp [(endTurn_fields _ _).2.2.2.2.1, swapApply, setPlayer]

theorem discardAndFlip_version (s : FullGameState) (uid : String) (i : Int) :
    (discardAndFlip s uid i).1.version = s.version := by
  simp only [discardAndFlip]
  repeat' split
  all_goals simp [(endTurn_fields _ _).2.2.2.2.1, discardFlipApply, setPlayer]

/-! ## On any error, the state is returned untouched -/

theorem initialFlipCard_err (s : FullGameState) (uid : String) (i : Int) :
    (initialFlipCard s uid i).2 ≠ none → (initialFlipCard s uid i).1 = s := by
  simp only [initialFlipCard]
  repeat' split
  all_goals simp

theorem drawFromDeck_err (s : FullGameState) (uid : String) :
    (drawFromDeck s uid).2 ≠ none → (drawFromDeck s uid).1 = s := by
  simp only [drawFromDeck]
  repeat' split
  all_goals simp

theorem drawFromDiscard_err (s : FullGameState) (uid : String) :
    (drawFromDiscard s uid).2 ≠ none → (drawFromDiscard s uid).1 = s := by
  simp only [drawFromDiscard]
  repeat' split
  all_goals simp

theorem swapCard_err (s : FullGameState) (uid : String) (i : Int) :
    (swapCard s uid i).2 ≠ none → (swapCard s uid i).1 = s := by
  simp only [swapCard]
  repeat' split
  all_goals simp

theorem discardAndFlip_err (s : FullGameState) (uid : String) (i : Int) :
    (discardAndFlip s uid i).2 ≠ none → (discardAndFlip s uid i).1 = s := by
  simp only [discardAndFlip]
  repeat' split
  all_goals simp

/-! ## Success-shape inversion lemmas -/

theorem initialFlipCard_success (s s' : FullGameState) (uid : String) (i : Int)
    (h : initialFlipCard s uid i = (s', none)) :
    ∃ playerIdx, findPlayerIndex s uid = some playerIdx ∧
      s.phase = GamePhase.initialFlip ∧ 0 ≤ i ∧ i ≤ 5 ∧
      (s.players.getD playerIdx default).faceUp.getD i.toNat false = false ∧
      (s.players.getD playerIdx default).initialFlips < 2 ∧
      (s' =
          { setPlayer s playerIdx
              { s.players.getD playerIdx default with
                faceUp := (s.players.getD playerIdx default).faceUp.set i.toNat true
                initialFlips := (s.players.getD playerIdx default).initialFlips + 1 } with
            phase := GamePhase.mainGame, currentTurnIdx := 0 } ∨
        s' = setPlayer s playerIdx
          { s.players.getD playerIdx default with
            faceUp := (s.players.getD playerIdx default).faceUp.set i.toNat true
            initialFlips := (s.players.getD playerIdx default).initialFlips + 1 }) := by
  simp only [initialFlipCard] at h
  split at h
  · simp at h
  · rename_i hphase
    split at h
    · simp at h
    · rename_i playerIdx hfind
      split at h
      · simp at h
      · rename_i hidx
        split at h
        · simp at h
        · split at h
          · simp at h
          · split at h
            · simp at h
            · split at h
              · simp at h
              · refine ⟨playerIdx, hfind, by simpa using hphase, by omega, by omega, by simp_all, by omega, ?_⟩
                split at h
                · left
                  exact (Prod.mk.injEq _ _ _ _ ▸ h).1.symm
                · right
                  exact (Prod.mk.injEq _ _ _ _ ▸ h).1.symm

theorem drawFromDeck_success (s s' : FullGameState) (uid : String)
    (h : drawFromDeck s uid = (s', none)) :
    ∃ playerIdx top rest, findPlayerIndex s uid = some playerIdx ∧
      playerIdx = s.currentTurnIdx ∧
      (s.phase = GamePhase.mainGame ∨ s.phase = GamePhase.finalRound) ∧
      s.drawnCard = none ∧ s.deck = top :: rest ∧
      s' = { s with drawnCard := some top, deck := rest } := by
  simp only [drawFromDeck] at h
  split at h
  · simp at h
  · rename_i hphase
    split at h
    · simp at h
    · rename_i playerIdx hfind
      split at h
      · simp at h
      · split at h
        · simp at h
        · rename_i hturn hdrawn
          split at h
          · simp at h
          · rename_i top rest hdeck
            refine ⟨playerIdx, top, rest, hfind, by omega, by tauto, ?_, hdeck, ?_⟩
            · simpa using hdrawn
            · exact (Prod.mk.injEq _ _ _ _ ▸ h).1.symm

theorem drawFromDiscard_success (s s' : FullGameState) (uid : String)
    (h : drawFromDiscard s uid = (s', none)) :
    ∃ playerIdx top, findPlayerIndex s uid = some playerIdx ∧
      playerIdx = s.currentTurnIdx ∧
      (s.phase = GamePhase.mainGame ∨ s.phase = GamePhase.finalRound) ∧
      s.drawnCard = none ∧ s.discardPile.getLast? = some top ∧
      s' = { s with drawnCard := some top, discardPile := s.discardPile.dropLast } := by
  simp only [drawFromDiscard] at h
  split at h
  · simp at h
  · rename_i hphase
    split at h
    · simp at h
    · rename_i playerIdx hfind
      split at h
      · simp at h
      · split at h
        · simp at h
        · rename_i hturn hdrawn
          split at h
          · simp at h
          · rename_i top hlast
            refine ⟨playerIdx, top, hfind, by omega, by tauto, ?_, hlast, ?_⟩
            · simpa using hdrawn
            · exact (Prod.mk.injEq _ _ _ _ ▸ h).1.symm

theorem swapCard_success (s s' : FullGameState) (uid : String) (i : Int)
    (h : swapCard s uid i = (s', none)) :
    ∃ playerIdx drawn, findPlayerIndex s uid = some playerIdx ∧
      playerIdx = s.currentTurnIdx ∧
      (s.phase = GamePhase.mainGame ∨ s.phase = GamePhase.finalRound) ∧
      s.drawnCard = some drawn ∧ 0 ≤ i ∧ i ≤ 5 ∧
      s' = endTurn (swapApply s playerIdx drawn i.toNat) playerIdx := by
  simp only [swapCard] at h
  split at h
  · simp at h
  · rename_i hphase
    split at h
    · simp at h
    · rename_i playerIdx hfind
      split at h
      · simp at h
      · rename_i hturn
        split at h
        · simp at h
        · rename_i drawn hdrawn
          split at h
          · simp at h
          · rename_i hidx
            refine ⟨playerIdx, drawn, hfind, by omega, by tauto, hdrawn, by omega, by omega, ?_⟩
            exact (Prod.mk.injEq _ _ _ _ ▸ h).1.symm

theorem discardAndFlip_success (s s' : FullGameState) (uid : String) (i : Int)
    (h : discardAndFlip s uid i = (s', none)) :
    ∃ playerIdx drawn, findPlayerIndex s uid = some playerIdx ∧
      playerIdx = s.currentTurnIdx ∧
      (s.phase = GamePhase.mainGame ∨ s.phase = GamePhase.finalRound) ∧
      s.drawnCard = some drawn ∧ 0 ≤ i ∧ i ≤ 5 ∧
      (s.players.getD playerIdx default).faceUp.getD i.toNat false = false ∧
      s' = endTurn (discardFlipApply s playerIdx drawn i.toNat) playerIdx := by
  simp only [discardAndFlip] at h
  split at h
  · simp at h
  · rename_i hphase
    split at h
    · simp at h
    · rename_i playerIdx hfind
      split at h
      · simp at h
      · rename_i hturn
        split at h
        · simp at h
        · rename_i drawn hdrawn
          split at h
          · simp at h
          · rename_i hidx
            split at h
            · simp at h
            · rename_i hface
              refine ⟨playerIdx, drawn, hfind, by omega, by tauto, hdrawn, by omega, by omega,
                by simpa using hface, ?_⟩
              exact (Prod.mk.injEq _ _ _ _ ▸ h).1.symm

/-! ## Card conservation -/

/-- Total number of cards in players' hands. -/
def handCount (s : FullGameState) : Nat :=
  (s.players.map (fun p => p.hand.length)).sum

/-- The quantity the specification calls the conserved card count:
`len(deck) + len(discardPile) + Σ len(hand)`. -/
def visibleCards (s : FullGameState) : Nat :=
  s.deck.length + s.discardPile.length + handCount s

/-- 1 when a drawn card is pending, 0 otherwise. -/
def pendingCount (s : FullGameState) : Nat :=
  if s.drawnCard.isSome then 1 else 0

/-- States reachable from `InitializeGame` (with any 54-card shuffled deck)
by successful state-machine operations. -/
inductive Reachable : FullGameState → Prop where
  | init (gameID : Int) (ids : List String) (deck : List CardDef) (s : FullGameState) :
      deck.length = 54 → initializeGame gameID ids deck = some s → Reachable s
  | flip (s s' : FullGameState) (uid : String) (i : Int) :
      Reachable s → initialFlipCard s uid i = (s', none) → Reachable s'
  | drawDeck (s s' : FullGameState) (uid : String) :
      Reachable s → drawFromDeck s uid = (s', none) → Reachable s'
  | drawDiscard (s s' : FullGameState) (uid : String) :
      Reachable s → drawFromDiscard s uid = (s', none) → Reachable s'
  | swap (s s' : FullGameState) (uid : String) (i : Int) :
      Reachable s → swapCard s uid i = (s', none) → Reachable s'
  | discardFlip (s s' : FullGameState) (uid : String) (i : Int) :
      Reachable s → discardAndFlip s uid i = (s', none) → Reachable s'

theorem handCount_setPlayer (s : FullGameState) (i : Nat) (p : PlayerState)
    (h : p.hand.length = ((s.players.getD i default).hand).length) :
    handCount (setPlayer s i p) = handCount s := by
  unfold handCount setPlayer
  exact sum_map_set_eq (fun q => q.hand.length) default s.players i p h

theorem initialFlipCard_conserves (s s' : FullGameState) (uid : String) (i : Int)
    (h : initialFlipCard s uid i = (s', none)) :
    visibleCards s' = visibleCards s ∧ pendingCount s' = pendingCount s := by
  obtain ⟨pIdx, -, -, -, -, -, -, hs'⟩ := initialFlipCard_success s s' uid i h
  have hhand : handCount (setPlayer s pIdx
      { s.players.getD pIdx default with
        faceUp := (s.players.getD pIdx default).faceUp.set i.toNat true
        initialFlips := (s.players.getD pIdx default).initialFlips + 1 }) = handCount s :=
    handCount_setPlayer _ _ _ rfl
  rcases hs' with hs' | hs' <;>
    simp [hs', visibleCards, pendingCount, setPlayer, handCount] at hhand ⊢ <;>
    simp [hhand]

theorem drawFromDeck_conserves (s s' : FullGameState) (uid : String)
    (h : drawFromDeck s uid = (s', none)) :
    visibleCards s' + pendingCount s' = visibleCards s + pendingCount s := by
  obtain ⟨pIdx, top, rest, -, -, -, hdrawn, hdeck, hs'⟩ := drawFromDeck_success s s' uid h
  simp [hs', visibleCards, pendingCount, handCount, hdeck, hdrawn]
  omega

theorem drawFromDiscard_conserves (s s' : FullGameState) (uid : String)
    (h : drawFromDiscard s uid = (s', none)) :
    visibleCards s' + pendingCount s' = visibleCards s + pendingCount s := by
  obtain ⟨pIdx, top, -, -, -, hdrawn, hlast, hs'⟩ := drawFromDiscard_success s s' uid h
  have hne : s.discardPile ≠ [] := by
    intro hnil
    simp [hnil] at hlast
  have hlen : s.discardPile.length ≥ 1 := by
    cases hd : s.discardPile with
    | nil => exact absurd hd hne
    | cons a t => simp
  simp [hs', visibleCards, pendingCount, handCount, hdrawn, List.length_dropLast]
  omega

theorem swapApply_counts (s : FullGameState) (pIdx : Nat) (drawn : CardDef) (idx : Nat) :
    (swapApply s pIdx drawn idx).deck = s.deck ∧
    (swapApply s pIdx drawn idx).discardPile.length = s.discardPile.length + 1 ∧
    handCount (swapApply s pIdx drawn idx) = handCount s ∧
    (swapApply s pIdx drawn idx).drawnCard = none := by
  have hhand : handCount (setPlayer s pIdx
      { s.players.getD pIdx default with
        hand := (s.players.getD pIdx default).hand.set idx drawn
        faceUp := (s.players.getD pIdx default).faceUp.set idx true
        allCardsFlipped := checkAllCardsFlipped
          { s.players.getD pIdx default with
            hand := (s.players.getD pIdx default).hand.set idx drawn
            faceUp := (s.players.getD pIdx default).faceUp.set idx true } }) = handCount s :=
    handCount_setPlayer _ _ _ (by simp)
  refine ⟨rfl, by simp [swapApply, setPlayer], ?_, rfl⟩
  simpa [swapApply, setPlayer, handCount] using
    (by simpa [setPlayer, handCount] using hhand)

theorem swapCard_conserves (s s' : FullGameState) (uid : String) (i : Int)
    (h : swapCard s uid i = (s', none)) :
    visibleCards s' + pendingCount s' = visibleCards s + pendingCount s := by
  obtain ⟨pIdx, drawn, -, -, -, hdrawn, -, -, hs'⟩ := swapCard_success s s' uid i h
  obtain ⟨hdeck, hdisc, hhand, hdrawn'⟩ := swapApply_counts s pIdx drawn i.toNat
  obtain ⟨edeck, edisc, eplayers, edrawn, -, -⟩ := endTurn_fields (swapApply s pIdx drawn i.toNat) pIdx
  have e1 : visibleCards s' = s.deck.length + (s.discardPile.length + 1) + handCount s := by
    rw [hs']
    unfold visibleCards
    rw [show handCount (endTurn (swapApply s pIdx drawn i.toNat) pIdx) =
        handCount (swapApply s pIdx drawn i.toNat) by unfold handCount; rw [eplayers]]
    rw [edeck, edisc, hdeck, hdisc, hhand]
  have e2 : pendingCount s' = 0 := by
    unfold pendingCount
    rw [hs', edrawn, hdrawn']
    rfl
  have e3 : pendingCount s = 1 := by
    unfold pendingCount
    rw [hdrawn]
    rfl
  rw [e1, e2, e3]
  unfold visibleCards
  omega

theorem discardFlipApply_counts (s : FullGameState) (pIdx : Nat) (drawn : CardDef) (idx : Nat) :
    (discardFlipApply s pIdx drawn idx).deck = s.deck ∧
    (discardFlipApply s pIdx drawn idx).discardPile.length = s.discardPile.length + 1 ∧
    handCount (discardFlipApply s pIdx drawn idx) = handCount s ∧
    (discardFlipApply s pIdx drawn idx).drawnCard = none := by
  have hhand : handCount (setPlayer s pIdx
      { s.players.getD pIdx default with
        faceUp := (s.players.getD pIdx default).faceUp.set idx true
        allCardsFlipped := checkAllCardsFlipped
          { s.players.getD pIdx default with
            faceUp := (s.players.getD pIdx default).faceUp.set idx true } }) = handCount s :=
    handCount_setPlayer _ _ _ (by simp)
  refine ⟨rfl, by simp [discardFlipApply, setPlayer], ?_, rfl⟩
  simpa [discardFlipApply, setPlayer, handCount] using
    (by simpa [setPlayer, handCount] using hhand)

theorem discardAndFlip_conserves (s s' : FullGameState) (uid : String) (i : Int)
    (h : discardAndFlip s uid i = (s', none)) :
    visibleCards s' + pendingCount s' = visibleCards s + pendingCount s := by
  obtain ⟨pIdx, drawn, -, -, -, hdrawn, -, -, -, hs'⟩ := discardAndFlip_success s s' uid i h
  obtain ⟨hdeck, hdisc, hhand, hdrawn'⟩ := discardFlipApply_counts s pIdx drawn i.toNat
  obtain ⟨edeck, edisc, eplayers, edrawn, -, -⟩ :=
    endTurn_fields (discardFlipApply s pIdx drawn i.toNat) pIdx
  have e1 : visibleCards s' = s.deck.length + (s.discardPile.length + 1) + handCount s := by
    rw [hs']
    unfold visibleCards
    rw [show handCount (endTurn (discardFlipApply s pIdx drawn i.toNat) pIdx) =
        handCount (discardFlipApply s pIdx drawn i.toNat) by unfold handCount; rw [eplayers]]
    rw [edeck, edisc, hdeck, hdisc, hhand]
  have e2 : pendingCount s' = 0 := by
    unfold pendingCount
    rw [hs', edrawn, hdrawn']
    rfl
  have e3 : pendingCount s = 1 := by
    unfold pendingCount
    rw [hdrawn]
    rfl
  rw [e1, e2, e3]
  unfold visibleCards
  omega

theorem initializeGame_counts (gameID : Int) (ids : List String) (deck : List CardDef)
    (s : FullGameState) (hdeck : deck.length = 54)
    (h : initializeGame gameID ids deck = some s) :
    visibleCards s = 54 ∧ pendingCount s = 0 := by
  simp only [initializeGame] at h
  split at h
  · simp at h
  · split at h
    · simp at h
    · rename_i discardTop deck3 hdeck2
      rw [Option.some_inj] at h
      have h3 : deck3.length = 41 := by
        have : ((deck.drop 6).drop 6).length = 42 := by
          simp [List.length_drop, hdeck]
        rw [hdeck2] at this
        simpa using this
      constructor
      · simp [← h, visibleCards, handCount, h3, List.length_take, List.length_drop, hdeck]
      · simp [← h, pendingCount]

/-- Card conservation along every reachable state, counting the pending
drawn card. -/
theorem reachable_conservation (s : FullGameState) (h : Reachable s) :
    visibleCards s + pendingCount s = 54 := by
  induction h with
  | init gameID ids deck s hdeck hinit =>
    obtain ⟨h1, h2⟩ := initializeGame_counts gameID ids deck s hdeck hinit
    omega
  | flip s s' uid i _ hop ih =>
    obtain ⟨h1, h2⟩ := initialFlipCard_conserves s s' uid i hop
    omega
  | drawDeck s s' uid _ hop ih =>
    have := drawFromDeck_conserves s s' uid hop
    omega
  | drawDiscard s s' uid _ hop ih =>
    have := drawFromDiscard_conserves s s' uid hop
    omega
  | swap s s' uid i _ hop ih =>
    have := swapCard_conserves s s' uid i hop
    omega
  | discardFlip s s' uid i _ hop ih =>
    have := discardAndFlip_conserves s s' uid i hop
    omega

/-! ## A concrete reachable game trace -/

/-- A concrete initial state: two players `p0`, `p1` dealt from the
unshuffled 54-card deck (one possible outcome of the shuffle). -/
def trace0 : FullGameState := (initializeGame 7 ["p0", "p1"] createDeckBase).getD default

/-- `p0` flips card 0 (top row). -/
def trace1 : FullGameState := (initialFlipCard trace0 "p0" 0).1

/-- `p0` flips card 3 (bottom row). -/
def trace2 : FullGameState := (initialFlipCard trace1 "p0" 3).1

/-- `p1` flips card 1 (top row). -/
def trace3 : FullGameState := (initialFlipCard trace2 "p1" 1).1

/-- `p1` flips card 4 (bottom row); all initial flips done, phase advances
to `main_game`. -/
def trace4 : FullGameState := (initialFlipCard trace3 "p1" 4).1

/-- `p0` draws from the deck; a drawn card is now pending. -/
def trace5 : FullGameState := (drawFromDeck trace4 "p0").1

theorem reachable_trace0 : Reachable trace0 :=
  Reachable.init 7 ["p0", "p1"] createDeckBase trace0 (by decide) (by decide)

theorem reachable_trace4 : Reachable trace4 :=
  Reachable.flip trace3 trace4 "p1" 4
    (Reachable.flip trace2 trace3 "p1" 1
      (Reachable.flip trace1 trace2 "p0" 3
        (Reachable.flip trace0 trace1 "p0" 0 reachable_trace0 (by decide))
        (by decide))
      (by decide))
    (by decide)

theorem reachable_trace5 : Reachable trace5 :=
  Reachable.drawDeck trace4 trace5 "p0" reachable_trace4 (by decide)

/-! ## Claim C1: card conservation -/

/-- C1 (counterexample): the claim that
`len(Deck) + len(DiscardPile) + Σ len(hand) = 54` holds in every reachable
state — in particular immediately after a successful `DrawFromDeck` while
`DrawnCard` is pending — is false: the concrete reachable state `trace5`,
obtained by a successful `DrawFromDeck` from a reachable `main_game` state,
has a pending drawn card and a visible-card count of 53, not 54. -/
theorem c1_counterexample :
    Reachable trace5 ∧ trace5.drawnCard.isSome = true ∧
    visibleCards trace5 = 53 ∧ visibleCards trace5 ≠ 54 :=
  ⟨reachable_trace5, by decide, by decide, by decide⟩

/-- C1 (amended): for every state reachable from `InitializeGame` by
successful state-machine operations,
`len(Deck) + len(DiscardPile) + Σ len(hand)` plus 1 for a pending
`DrawnCard` equals 54; so the sum itself is 54 exactly when no drawn card
is pending, and 53 while one is pending. -/
theorem c1_card_conservation (s : FullGameState) (h : Reachable s) :
    visibleCards s + pendingCount s = 54 :=
  reachable_conservation s h

/-- C1 (witness): the amended conservation theorem applied to the concrete
reachable state `trace5`. -/
theorem c1_card_conservation_witness :
    visibleCards trace5 + pendingCount trace5 = 54 :=
  c1_card_conservation trace5 reachable_trace5

/-! ## Claim C4: version behaviour of the state machine -/

/-- `p0` swaps the drawn card into position 2 of their hand (a successful
mutating operation). -/
def trace6 : FullGameState := (swapCard trace5 "p0" 2).1

/-- C4 (counterexample): the claim that every successful mutating
state-machine operation produces a state whose `Version` is exactly one
greater than the input's is false: the successful `SwapCard` from `trace5`
leaves `Version` at 1, equal to — not one greater than — the input
version. -/
theorem c4_counterexample :
    swapCard trace5 "p0" 2 = (trace6, none) ∧ trace5.version = 1 ∧
    trace6.version = 1 ∧ trace6.version ≠ trace5.version + 1 := by
  refine ⟨by decide, by decide, by decide, by decide⟩

/-- C4 (amended): the five state-machine operations never change the
`Version` field of the state (successful or not); the version counter that
increases by one per persisted mutation is maintained by the persistence
layer's compare-and-swap (`UpdateGameState`), outside the state machine. -/
theorem c4_version_unchanged (s : FullGameState) (uid : String) (i : Int) :
    (initialFlipCard s uid i).1.version = s.version ∧
    (drawFromDeck s uid).1.version = s.version ∧
    (drawFromDiscard s uid).1.version = s.version ∧
    (swapCard s uid i).1.version = s.version ∧
    (discardAndFlip s uid i).1.version = s.version :=
  ⟨initialFlipCard_version s uid i, drawFromDeck_version s uid, drawFromDiscard_version s uid,
    swapCard_version s uid i, discardAndFlip_version s uid i⟩

/-! ## Claim C7: turn enforcement for DrawFromDeck -/

/-- C7 (counterexample): the claim that `DrawFromDeck` invoked by a
non-current player always fails with a not-your-turn error is false for
states outside the drawing phases: in the concrete `initial_flip` state
`trace0`, player `p1` (index 1, while it is index 0's turn) gets the
wrong-phase error, not the not-your-turn error. -/
theorem c7_counterexample :
    findPlayerIndex trace0 "p1" = some 1 ∧ trace0.currentTurnIdx = 0 ∧
    drawFromDeck trace0 "p1" = (trace0, some GameError.invalidPhase) ∧
    (drawFromDeck trace0 "p1").2 ≠ some GameError.notYourTurn := by
  refine ⟨by decide, by decide, by decide, by decide⟩

/-- C7 (amended): in the phases where drawing is possible (`main_game` or
`final_round`), `DrawFromDeck` invoked by a player in the game other than
the current-turn player always fails with the not-your-turn error and
returns the state completely unchanged (version included). -/
theorem c7_turn_enforcement (s : FullGameState) (uid : String) (pIdx : Nat)
    (hphase : s.phase = GamePhase.mainGame ∨ s.phase = GamePhase.finalRound)
    (hfind : findPlayerIndex s uid = some pIdx)
    (hturn : pIdx ≠ s.currentTurnIdx) :
    drawFromDeck s uid = (s, some GameError.notYourTurn) := by
  have hp : ¬(s.phase ≠ GamePhase.mainGame ∧ s.phase ≠ GamePhase.finalRound) := by tauto
  simp only [drawFromDeck, hfind]
  rw [if_neg hp]
  simp [hturn]

/-- C7 (witness): in the concrete `main_game` state `trace4` (turn of index
0), `p1`'s draw is rejected as not-your-turn with the state unchanged. -/
theorem c7_turn_enforcement_witness :
    drawFromDeck trace4 "p1" = (trace4, some GameError.notYourTurn) :=
  c7_turn_enforcement trace4 "p1" 1 (Or.inl (by decide)) (by decide) (by decide)

/-! ## Claim C8: errors leave the state untouched -/

/-- C8: for each of the five state-machine operations, on any input, if the
operation returns an error then the returned state equals the input state in
every field (phase, deck, discard pile, hands, faceUp, drawnCard, turn
index, version). -/
theorem c8_error_leaves_state (s : FullGameState) (uid : String) (i : Int) :
    ((initialFlipCard s uid i).2 ≠ none → (initialFlipCard s uid i).1 = s) ∧
    ((drawFromDeck s uid).2 ≠ none → (drawFromDeck s uid).1 = s) ∧
    ((drawFromDiscard s uid).2 ≠ none → (drawFromDiscard s uid).1 = s) ∧
    ((swapCard s uid i).2 ≠ none → (swapCard s uid i).1 = s) ∧
    ((discardAndFlip s uid i).2 ≠ none → (discardAndFlip s uid i).1 = s) :=
  ⟨initialFlipCard_err s uid i, drawFromDeck_err s uid, drawFromDiscard_err s uid,
    swapCard_err s uid i, discardAndFlip_err s uid i⟩

/-- C8 (witness): concrete failing calls — a wrong-phase draw by `p1` in
`trace0` and a swap without a pending drawn card by `p0` in `trace4` — both
return the input state untouched. -/
theorem c8_error_leaves_state_witness :
    (drawFromDeck trace0 "p1").1 = trace0 ∧ (swapCard trace4 "p0" 0).1 = trace4 :=
  ⟨(c8_error_leaves_state trace0 "p1" 0).2.1 (by decide),
    (c8_error_leaves_state trace4 "p0" 0).2.2.2.1 (by decide)⟩

/-! ## Claim C5: scoring with column cancellation -/

/-- The card values exactly as the specification words them: A=1, ranks 2–10
their face value, J/Q/K each 10, Joker −2 (a rank outside the deck's
vocabulary scores the Go `default` of 0). -/
def specCardValue (card : CardDef) : Int :=
  if card.rank = "A" then 1
  else if card.rank = "2" then 2
  else if card.rank = "3" then 3
  else if card.rank = "4" then 4
  else if card.rank = "5" then 5
  else if card.rank = "6" then 6
  else if card.rank = "7" then 7
  else if card.rank = "8" then 8
  else if card.rank = "9" then 9
  else if card.rank = "10" then 10
  else if card.rank = "J" then 10
  else if card.rank = "Q" then 10
  else if card.rank = "K" then 10
  else if card.rank = "Joker" then -2
  else 0

/-- The column contribution exactly as the specification words it: a column
whose two cards are both face-up with equal ranks contributes 0 regardless
of suit; otherwise each face-up card contributes its value and each
face-down card contributes 0. -/
def specColumnScore (player : PlayerState) (c : Nat) : Int :=
  let top := player.hand.getD c default
  let bottom := player.hand.getD (c + 3) default
  let topUp := player.faceUp.getD c false
  let bottomUp := player.faceUp.getD (c + 3) false
  if topUp ∧ bottomUp ∧ top.rank = bottom.rank then 0
  else (if topUp then specCardValue top else 0) + (if bottomUp then specCardValue bottom else 0)

theorem getCardValue_eq_spec (card : CardDef) : getCardValue card = specCardValue card := by
  unfold getCardValue specCardValue
  by_cases h1 : card.rank = "A"
  · rw [if_pos h1, if_pos h1]
  · rw [if_neg h1, if_neg h1]
    by_cases h2 : card.rank = "2"
    · rw [if_pos h2, if_pos h2]
    · rw [if_neg h2, if_neg h2]
      by_cases h3 : card.rank = "3"
      · rw [if_pos h3, if_pos h3]
      · rw [if_neg h3, if_neg h3]
        by_cases h4 : card.rank = "4"
        · rw [if_pos h4, if_pos h4]
        · rw [if_neg h4, if_neg h4]
          by_cases h5 : card.rank = "5"
          · rw [if_pos h5, if_pos h5]
          · rw [if_neg h5, if_neg h5]
            by_cases h6 : card.rank = "6"
            · rw [if_pos h6, if_pos h6]
            · rw [if_neg h6, if_neg h6]
              by_cases h7 : card.rank = "7"
              · rw [if_pos h7, if_pos h7]
              · rw [if_neg h7, if_neg h7]
                by_cases h8 : card.rank = "8"
                · rw [if_pos h8, if_pos h8]
                · rw [if_neg h8, if_neg h8]
                  by_cases h9 : card.rank = "9"
                  · rw [if_pos h9, if_pos h9]
                  · rw [if_neg h9, if_neg h9]
                    by_cases h10 : card.rank = "10"
                    · rw [if_pos h10, if_pos h10]
                    · rw [if_neg h10, if_neg h10]
                      by_cases hJ : card.rank = "J"
                      · rw [if_pos (Or.inl hJ), if_pos hJ]
                      · by_cases hQ : card.rank = "Q"
                        · rw [if_pos (Or.inr (Or.inl hQ)), if_neg hJ, if_pos hQ]
                        · by_cases hK : card.rank = "K"
                          · rw [if_pos (Or.inr (Or.inr hK)), if_neg hJ, if_neg hQ, if_pos hK]
                          · have hjqk : ¬(card.rank = "J" ∨ card.rank = "Q" ∨ card.rank = "K") := by tauto
                            rw [if_neg hjqk, if_neg hJ, if_neg hQ, if_neg hK]

theorem columnScore_eq_spec (player : PlayerState) (c : Nat) :
    columnScore player c = specColumnScore player c := by
  simp only [columnScore, specColumnScore, getCardValue_eq_spec]

/-- C5: `CalculateScore` is the sum over the three columns (indices `c` and
`c+3`) of the specification's column rule — both-face-up equal-rank columns
contribute 0 regardless of suit (two face-up Jokers included, scoring 0
rather than −4), every other face-up card contributes its card value (A=1,
2–10 face value, J/Q/K=10, Joker=−2), and face-down cards contribute 0. -/
theorem c5_column_cancellation (player : PlayerState) :
    (CalculateScore player =
      specColumnScore player 0 + specColumnScore player 1 + specColumnScore player 2) ∧
    (∀ c : Nat, player.faceUp.getD c false = true → player.faceUp.getD (c + 3) false = true →
      (player.hand.getD c default).rank = "Joker" →
      (player.hand.getD (c + 3) default).rank = "Joker" →
      specColumnScore player c = 0) := by
  constructor
  · have h3 : List.range 3 = [0, 1, 2] := by decide
    simp [CalculateScore, h3, columnScore_eq_spec]
  · intro c htop hbottom hrt hrb
    simp only [specColumnScore]
    rw [if_pos]
    exact ⟨htop, hbottom, hrt.trans hrb.symm⟩

/-- C5 (witness): a hand with two face-up Jokers in column 0, a face-up
matched pair of 5s in column 1 (different suits), and a face-up King over a
face-down 2 in column 2 scores 10: the Jokers and the 5s cancel, the King
counts 10, the face-down 2 counts 0. -/
theorem c5_column_cancellation_witness :
    CalculateScore
        { userID := "x"
          hand := [⟨"joker", "Joker"⟩, ⟨"hearts", "5"⟩, ⟨"clubs", "K"⟩,
            ⟨"joker", "Joker"⟩, ⟨"spades", "5"⟩, ⟨"hearts", "2"⟩]
          faceUp := [true, true, true, true, true, false]
          initialFlips := 2
          allCardsFlipped := false } = 10 := by
  rw [(c5_column_cancellation _).1]
  decide

/-! ## Claim C6: initial-flip row pairing -/

/-- C6: in phase `initial_flip`, when a player has already flipped exactly
one card (face-up at index `j`) and targets a face-down card at index `i`
in the same row (both top-row 0–2 or both bottom-row 3–5), the second
`InitialFlipCard` returns the invalid-initial-flip rule error and leaves
the state completely unmutated. -/
theorem c6_initial_flip_row (s : FullGameState) (uid : String) (pIdx : Nat) (i : Int) (j : Nat)
    (hphase : s.phase = GamePhase.initialFlip)
    (hfind : findPlayerIndex s uid = some pIdx)
    (hflips : (s.players.getD pIdx default).initialFlips = 1)
    (hi0 : 0 ≤ i) (hi5 : i ≤ 5)
    (hface : (s.players.getD pIdx default).faceUp.getD i.toNat false = false)
    (hj : (s.players.getD pIdx default).faceUp.getD j false = true)
    (hrow : (i < 3 ∧ j < 3) ∨ (3 ≤ i ∧ 3 ≤ j ∧ j ≤ 5)) :
    initialFlipCard s uid i = (s, some GameError.invalidInitialFlip) := by
  have hidx : ¬(i < 0 ∨ i > 5) := by omega
  simp only [initialFlipCard, hfind]
  rw [if_neg (by simp [hphase])]
  rw [if_neg hidx]
  rw [if_neg (by simp only [Bool.not_eq_true]; exact hface)]
  rw [if_neg (by omega)]
  rcases hrow with ⟨hi3, hj3⟩ | ⟨hi3, hj3, hj5⟩
  · have htr : hasTopRow (s.players.getD pIdx default) = true := by
      unfold hasTopRow
      rw [show List.range 3 = [0, 1, 2] from by decide]
      interval_cases j <;> simp_all
    rw [if_pos ⟨hflips, hi3, htr⟩]
  · have hbr : hasBottomRow (s.players.getD pIdx default) = true := by
      unfold hasBottomRow
      rw [show List.range 3 = [0, 1, 2] from by decide]
      interval_cases j <;> simp_all
    rw [if_neg (fun hc => absurd hc.2.1 (by omega))]
    rw [if_pos ⟨hflips, hi3, hbr⟩]

/-- C6 (witness): in `trace1`, `p0` has flipped only index 0 (top row);
flipping index 1 (also top row) is rejected with the invalid-initial-flip
error and the state is unchanged. -/
theorem c6_initial_flip_row_witness :
    initialFlipCard trace1 "p0" 1 = (trace1, some GameError.invalidInitialFlip) :=
  c6_initial_flip_row trace1 "p0" 0 1 0 (by decide) (by decide) (by decide) (by decide)
    (by decide) (by decide) (by decide) (Or.inl ⟨by decide, by decide⟩)

/-! ## Claim C3: end-game trigger -/

theorem swapApply_fields (s : FullGameState) (pIdx : Nat) (drawn : CardDef) (idx : Nat) :
    (swapApply s pIdx drawn idx).phase = s.phase ∧
    (swapApply s pIdx drawn idx).finalRoundTurns = s.finalRoundTurns ∧
    (swapApply s pIdx drawn idx).players.length = s.players.length := by
  simp [swapApply, setPlayer]

theorem discardFlipApply_fields (s : FullGameState) (pIdx : Nat) (drawn : CardDef) (idx : Nat) :
    (discardFlipApply s pIdx drawn idx).phase = s.phase ∧
    (discardFlipApply s pIdx drawn idx).finalRoundTurns = s.finalRoundTurns ∧
    (discardFlipApply s pIdx drawn idx).players.length = s.players.length := by
  simp [discardFlipApply, setPlayer]

theorem endTurn_trigger (s : FullGameState) (pIdx : Nat)
    (hall : (s.players.getD pIdx default).allCardsFlipped = true)
    (hphase : s.phase = GamePhase.mainGame)
    (hlen : s.players.length = 2) :
    (endTurn s pIdx).phase = GamePhase.finalRound ∧
    (endTurn s pIdx).triggerPlayerIdx = some pIdx ∧
    (endTurn s pIdx).finalRoundTurns = 0 := by
  simp only [endTurn]
  rw [if_pos (show (s.players.getD pIdx default).allCardsFlipped = true ∧
      s.phase = GamePhase.mainGame from ⟨hall, hphase⟩)]
  simp [hlen]

theorem endTurn_final (s : FullGameState) (pIdx : Nat)
    (hphase : s.phase = GamePhase.finalRound)
    (hturns : s.finalRoundTurns = 0) :
    (endTurn s pIdx).phase = GamePhase.finished := by
  simp only [endTurn]
  rw [if_neg (show ¬((s.players.getD pIdx default).allCardsFlipped = true ∧
      s.phase = GamePhase.mainGame) from
    fun hc => by rw [hphase] at hc; exact absurd hc.2 (by decide))]
  rw [if_pos hphase]
  rw [if_pos (show s.finalRoundTurns - 1 < 0 from by rw [hturns]; norm_num)]

theorem drawFromDeck_preserves (t t' : FullGameState) (uid : String)
    (h : drawFromDeck t uid = (t', none)) :
    t'.phase = t.phase ∧ t'.finalRoundTurns = t.finalRoundTurns := by
  obtain ⟨pIdx, top, rest, -, -, -, -, -, ht'⟩ := drawFromDeck_success t t' uid h
  simp [ht']

theorem drawFromDiscard_preserves (t t' : FullGameState) (uid : String)
    (h : drawFromDiscard t uid = (t', none)) :
    t'.phase = t.phase ∧ t'.finalRoundTurns = t.finalRoundTurns := by
  obtain ⟨pIdx, top, -, -, -, -, -, ht'⟩ := drawFromDiscard_success t t' uid h
  simp [ht']

theorem turn_completion_finishes (t t' : FullGameState) (uid2 : String) (i2 : Int)
    (hphase : t.phase = GamePhase.finalRound) (hturns : t.finalRoundTurns = 0)
    (hop : swapCard t uid2 i2 = (t', none) ∨ discardAndFlip t uid2 i2 = (t', none)) :
    t'.phase = GamePhase.finished := by
  rcases hop with hop | hop
  · obtain ⟨pIdx, drawn, -, -, -, -, -, -, ht'⟩ := swapCard_success t t' uid2 i2 hop
    obtain ⟨aphase, aturns, -⟩ := swapApply_fields t pIdx drawn i2.toNat
    rw [ht']
    exact endTurn_final _ _ (aphase.trans hphase) (aturns.trans hturns)
  · obtain ⟨pIdx, drawn, -, -, -, -, -, -, -, ht'⟩ := discardAndFlip_success t t' uid2 i2 hop
    obtain ⟨aphase, aturns, -⟩ := discardFlipApply_fields t pIdx drawn i2.toNat
    rw [ht']
    exact endTurn_final _ _ (aphase.trans hphase) (aturns.trans hturns)

/-- A concrete `main_game` state: `p0` has five cards face-up and a pending
drawn card; swapping into the last face-down slot will flip the whole hand. -/
def c3state : FullGameState :=
  { gameID := 1
    phase := .mainGame
    deck := [⟨"hearts", "2"⟩, ⟨"clubs", "7"⟩]
    discardPile := [⟨"clubs", "3"⟩]
    players :=
      [ { userID := "p0"
          hand := [⟨"hearts", "A"⟩, ⟨"hearts", "4"⟩, ⟨"spades", "8"⟩,
            ⟨"diamonds", "K"⟩, ⟨"clubs", "2"⟩, ⟨"hearts", "9"⟩]
          faceUp := [true, true, true, true, true, false]
          initialFlips := 2
          allCardsFlipped := false },
        { userID := "p1"
          hand := [⟨"diamonds", "A"⟩, ⟨"diamonds", "4"⟩, ⟨"clubs", "8"⟩,
            ⟨"spades", "K"⟩, ⟨"diamonds", "2"⟩, ⟨"spades", "9"⟩]
          faceUp := [true, false, false, false, false, true]
          initialFlips := 2
          allCardsFlipped := false } ]
    currentTurnIdx := 0
    drawnCard := some ⟨"spades", "10"⟩
    triggerPlayerIdx := none
    finalRoundTurns := 0
    version := 3 }

/-- The state after `p0` swaps the drawn card into index 5, flipping their
entire hand face-up and triggering the final round. -/
def c3state' : FullGameState := (swapCard c3state "p0" 5).1

/-- C3 (counterexample): the claim that a trigger during `main_game` leaves
`FinalRoundTurns = numPlayers - 1` (= 1 for two players) in the resulting
state is false: in the concrete successful `SwapCard` from `c3state` that
flips all of `p0`'s cards, the resulting state is in `final_round` with
`FinalRoundTurns = 0`, because `endTurn` sets `numPlayers - 1` and then
immediately decrements it in the same call. -/
theorem c3_counterexample :
    swapCard c3state "p0" 5 = (c3state', none) ∧
    c3state.players.length = 2 ∧ c3state.phase = GamePhase.mainGame ∧
    (c3state'.players.getD 0 default).allCardsFlipped = true ∧
    c3state'.phase = GamePhase.finalRound ∧
    c3state'.finalRoundTurns = 0 ∧
    c3state'.finalRoundTurns ≠ (c3state.players.length : Int) - 1 :=
  ⟨by decide, by decide, by decide, by decide, by decide, by decide, by decide⟩

/-- C3 (amended): if a successful `SwapCard` or `DiscardAndFlip` by the
player at index `pIdx` makes that player's six cards all face-up while the
phase was `main_game` (two players), then the resulting state has phase
`final_round`, `TriggerPlayerIdx = pIdx`, and `FinalRoundTurns = 0`
(`numPlayers - 1` is set and immediately decremented within the same
`endTurn`); from any `final_round` state with `FinalRoundTurns = 0`, the
next completed turn (`SwapCard` or `DiscardAndFlip`) moves the phase to
`finished` — i.e. exactly `numPlayers - 1 = 1` further completed turn —
while intervening draws change neither phase nor counter. -/
theorem c3_endgame_trigger (s s' : FullGameState) (uid : String) (i : Int) (pIdx : Nat)
    (hlen : s.players.length = 2)
    (hphase : s.phase = GamePhase.mainGame)
    (hfind : findPlayerIndex s uid = some pIdx)
    (hop : swapCard s uid i = (s', none) ∨ discardAndFlip s uid i = (s', none))
    (hall : (s'.players.getD pIdx default).allCardsFlipped = true) :
    (s'.phase = GamePhase.finalRound ∧ s'.triggerPlayerIdx = some pIdx ∧
      s'.finalRoundTurns = 0) ∧
    (∀ t t' uid2 i2, t.phase = GamePhase.finalRound → t.finalRoundTurns = 0 →
      (swapCard t uid2 i2 = (t', none) ∨ discardAndFlip t uid2 i2 = (t', none)) →
      t'.phase = GamePhase.finished) ∧
    (∀ t t' uid2, t.phase = GamePhase.finalRound →
      (drawFromDeck t uid2 = (t', none) ∨ drawFromDiscard t uid2 = (t', none)) →
      t'.phase = GamePhase.finalRound ∧ t'.finalRoundTurns = t.finalRoundTurns) := by
  refine ⟨?_, ?_, ?_⟩
  · rcases hop with hop | hop
    · obtain ⟨pIdx2, drawn, hfind2, -, -, -, -, -, ht'⟩ := swapCard_success s s' uid i hop
      have hp : pIdx2 = pIdx := by
        rw [hfind] at hfind2
        exact (Option.some_inj.mp hfind2).symm
      subst hp
      obtain ⟨aphase, -, alen⟩ := swapApply_fields s pIdx2 drawn i.toNat
      obtain ⟨-, -, eplayers, -, -, -⟩ := endTurn_fields (swapApply s pIdx2 drawn i.toNat) pIdx2
      have hall' :
          ((swapApply s pIdx2 drawn i.toNat).players.getD pIdx2 default).allCardsFlipped = true := by
        rw [← eplayers, ← ht']
        exact hall
      rw [ht']
      exact endTurn_trigger _ _ hall' (aphase.trans hphase) (alen.trans hlen)
    · obtain ⟨pIdx2, drawn, hfind2, -, -, -, -, -, -, ht'⟩ :=
        discardAndFlip_success s s' uid i hop
      have hp : pIdx2 = pIdx := by
        rw [hfind] at hfind2
        exact (Option.some_inj.mp hfind2).symm
      subst hp
      obtain ⟨aphase, -, alen⟩ := discardFlipApply_fields s pIdx2 drawn i.toNat
      obtain ⟨-, -, eplayers, -, -, -⟩ := endTurn_fields (discardFlipApply s pIdx2 drawn i.toNat) pIdx2
      have hall' :
          ((discardFlipApply s pIdx2 drawn i.toNat).players.getD pIdx2 default).allCardsFlipped =
            true := by
        rw [← eplayers, ← ht']
        exact hall
      rw [ht']
      exact endTurn_trigger _ _ hall' (aphase.trans hphase) (alen.trans hlen)
  · intro t t' uid2 i2 h1 h2 h3
    exact turn_completion_finishes t t' uid2 i2 h1 h2 h3
  · intro t t' uid2 h1 h2
    rcases h2 with h2 | h2
    · obtain ⟨e1, e2⟩ := drawFromDeck_preserves t t' uid2 h2
      exact ⟨e1.trans h1, e2⟩
    · obtain ⟨e1, e2⟩ := drawFromDiscard_preserves t t' uid2 h2
      exact ⟨e1.trans h1, e2⟩

/-- C3 (witness): the amended trigger theorem applied to the concrete swap
from `c3state`. -/
theorem c3_endgame_trigger_witness :
    c3state'.phase = GamePhase.finalRound ∧ c3state'.triggerPlayerIdx = some 0 ∧
    c3state'.finalRoundTurns = 0 :=
  (c3_endgame_trigger c3state c3state' "p0" 5 0 (by decide) (by decide) (by decide)
    (Or.inl (by decide)) (by decide)).1
/-! ## Claim C9: winner selection in FinishGame -/

theorem getCardValue_bounds (card : CardDef) :
    -2 ≤ getCardValue card ∧ getCardValue card ≤ 10 := by
  unfold getCardValue
  by_cases h1 : card.rank = "A"
  · rw [if_pos h1]
    norm_num
  · rw [if_neg h1]
    by_cases h2 : card.rank = "2"
    · rw [if_pos h2]
      norm_num
    · rw [if_neg h2]
      by_cases h3 : card.rank = "3"
      · rw [if_pos h3]
        norm_num
      · rw [if_neg h3]
        by_cases h4 : card.rank = "4"
        · rw [if_pos h4]
          norm_num
        · rw [if_neg h4]
          by_cases h5 : card.rank = "5"
          · rw [if_pos h5]
            norm_num
          · rw [if_neg h5]
            by_cases h6 : card.rank = "6"
            · rw [if_pos h6]
              norm_num
            · rw [if_neg h6]
              by_cases h7 : card.rank = "7"
              · rw [if_pos h7]
                norm_num
              · rw [if_neg h7]
                by_cases h8 : card.rank = "8"
                · rw [if_pos h8]
                  norm_num
                · rw [if_neg h8]
                  by_cases h9 : card.rank = "9"
                  · rw [if_pos h9]
                    norm_num
                  · rw [if_neg h9]
                    by_cases h10 : card.rank = "10"
                    · rw [if_pos h10]
                      norm_num
                    · rw [if_neg h10]
                      by_cases h11 : card.rank = "J" ∨ card.rank = "Q" ∨ card.rank = "K"
                      · rw [if_pos h11]
                        norm_num
                      · rw [if_neg h11]
                        by_cases h12 : card.rank = "Joker"
                        · rw [if_pos h12]
                          norm_num
                        · rw [if_neg h12]
                          norm_num

theorem columnScore_bounds (player : PlayerState) (c : Nat) :
    -4 ≤ columnScore player c ∧ columnScore player c ≤ 20 := by
  simp only [columnScore]
  obtain ⟨t1, t2⟩ := getCardValue_bounds (player.hand.getD c default)
  obtain ⟨b1, b2⟩ := getCardValue_bounds (player.hand.getD (c + 3) default)
  split
  · norm_num
  · split <;> split <;> omega

theorem calculateScore_bounds (player : PlayerState) :
    -12 ≤ CalculateScore player ∧ CalculateScore player ≤ 60 := by
  have h3 : List.range 3 = [0, 1, 2] := by decide
  obtain ⟨a1, a2⟩ := columnScore_bounds player 0
  obtain ⟨b1, b2⟩ := columnScore_bounds player 1
  obtain ⟨c1, c2⟩ := columnScore_bounds player 2
  simp only [CalculateScore, h3, List.foldl]
  omega

theorem finishWinnerAux_two (q0 q1 : PlayerState) :
    finishWinnerAux [q0, q1] goMaxInt "" =
      if CalculateScore q1 < CalculateScore q0 then q1.userID else q0.userID := by
  have b0 : CalculateScore q0 < goMaxInt := by
    have := (calculateScore_bounds q0).2
    unfold goMaxInt
    omega
  by_cases h : CalculateScore q1 < CalculateScore q0 <;>
    simp [finishWinnerAux, b0, h]

/-- C9: `FinishGame` (after force-flipping every remaining card) scans the
players in order and takes as winner the player whose score is strictly
below the lowest seen so far; with two players this means the player at
index 1 wins only with a strictly lower score, and on a tie the player at
index 0 (first in turn order) is always declared the winner. -/
theorem c9_finish_winner (s : FullGameState) (p0 p1 : PlayerState)
    (hphase : s.phase = GamePhase.finished)
    (hplayers : s.players = [p0, p1]) :
    (finishGameWinner s =
      some (if CalculateScore (flipAllPlayer p1) < CalculateScore (flipAllPlayer p0)
        then (flipAllPlayer p1).userID else (flipAllPlayer p0).userID)) ∧
    (CalculateScore (flipAllPlayer p0) = CalculateScore (flipAllPlayer p1) →
      finishGameWinner s = some p0.userID) := by
  have hmain : finishGameWinner s =
      some (if CalculateScore (flipAllPlayer p1) < CalculateScore (flipAllPlayer p0)
        then (flipAllPlayer p1).userID else (flipAllPlayer p0).userID) := by
    unfold finishGameWinner
    rw [if_neg (by simp [hphase])]
    simp only [flipRemainingCards, hplayers, List.map]
    exact congrArg some (finishWinnerAux_two (flipAllPlayer p0) (flipAllPlayer p1))
  refine ⟨hmain, fun htie => ?_⟩
  rw [hmain, if_neg (by omega)]
  rfl

/-- C9 (witness): a concrete finished two-player game where both players'
fully revealed hands score the same total; the winner is `p0`, the player
at index 0. -/
theorem c9_finish_winner_witness :
    finishGameWinner
        { gameID := 2
          phase := .finished
          deck := []
          discardPile := [⟨"hearts", "K"⟩]
          players :=
            [ { userID := "p0"
                hand := [⟨"hearts", "A"⟩, ⟨"hearts", "2"⟩, ⟨"hearts", "3"⟩,
                  ⟨"spades", "4"⟩, ⟨"spades", "5"⟩, ⟨"spades", "6"⟩]
                faceUp := [true, true, true, true, true, true]
                initialFlips := 2
                allCardsFlipped := true },
              { userID := "p1"
                hand := [⟨"clubs", "6"⟩, ⟨"clubs", "5"⟩, ⟨"clubs", "4"⟩,
                  ⟨"diamonds", "3"⟩, ⟨"diamonds", "2"⟩, ⟨"diamonds", "A"⟩]
                faceUp := [true, true, true, false, false, true]
                initialFlips := 2
                allCardsFlipped := false } ]
          currentTurnIdx := 1
          drawnCard := none
          triggerPlayerIdx := some 0
          finalRoundTurns := -1
          version := 9 } = some "p0" :=
  (c9_finish_winner _ _ _ rfl rfl).2 (by decide)

/-! ## Claims C2 and C10: per-viewer redaction -/

theorem renderCards_facedown (player : PlayerState) (i : Nat) (hi : i < 6)
    (h : player.faceUp.getD i false = false) :
    (renderCards player).getD i default =
      { suit := "back", value := "hidden", index := (i : Int) } := by
  unfold renderCards
  rw [show List.range 6 = [0, 1, 2, 3, 4, 5] from by decide]
  interval_cases i <;> (simp only [List.getD_eq_getElem?_getD] at h; simp [h])

theorem assignCards_snd (players : List PlayerState) (v : String) :
    ∀ acc : List Card × List Card,
      (assignCards players v acc).2 = acc.2 ∨
      ∃ p, p ∈ players ∧ p.userID ≠ v ∧ (assignCards players v acc).2 = renderCards p := by
  induction players with
  | nil =>
    intro acc
    left
    rfl
  | cons a t ih =>
    intro acc
    simp only [assignCards, List.foldl_cons] at *
    by_cases ha : a.userID = v
    · rw [if_pos ha]
      rcases ih (renderCards a, acc.2) with h | ⟨p, hp, hpv, h⟩
      · left
        exact h
      · right
        exact ⟨p, List.mem_cons_of_mem a hp, hpv, h⟩
    · rw [if_neg ha]
      rcases ih (acc.1, renderCards a) with h | ⟨p, hp, hpv, h⟩
      · right
        exact ⟨a, List.mem_cons_self a t, ha, h⟩
      · right
        exact ⟨p, List.mem_cons_of_mem a hp, hpv, h⟩

theorem buildGameStatePayload_drawn (s : FullGameState) (v : String) :
    (buildGameStatePayload s v).drawnCard ≠ none ↔
      s.drawnCard.isSome = true ∧ currentPlayerID s = v := by
  unfold buildGameStatePayload
  cases hd : s.drawnCard with
  | none => simp
  | some c =>
    by_cases hv : currentPlayerID s = v
    · simp [hv]
    · simp [hv]

/-- C2: in every per-viewer payload, `opponentCards` only ever comes from the
rendering of a player other than the viewer (or stays empty); the rendering
replaces every face-down card by the `"back"`/`"hidden"` placeholder, so the
opponent's face-down suits and ranks never appear; and the pending drawn
card is rendered (non-null) exactly for the viewer who is the current-turn
player — every other viewer receives `drawnCard = null`. -/
theorem c2_opponent_redaction (s : FullGameState) (v : String) :
    ((buildGameStatePayload s v).opponentCards = [] ∨
      ∃ p, p ∈ s.players ∧ p.userID ≠ v ∧
        (buildGameStatePayload s v).opponentCards = renderCards p) ∧
    (∀ p, p ∈ s.players → p.userID ≠ v → ∀ i, i < 6 →
      p.faceUp.getD i false = false →
      (renderCards p).getD i default =
        { suit := "back", value := "hidden", index := (i : Int) }) ∧
    ((buildGameStatePayload s v).drawnCard ≠ none ↔
      s.drawnCard.isSome = true ∧ currentPlayerID s = v) := by
  refine ⟨assignCards_snd s.players v ([], []), ?_, buildGameStatePayload_drawn s v⟩
  intro p _ _ i hi h
  exact renderCards_facedown p i hi h

/-- C2 (witness): in the concrete state `trace5` (current player `p0`
holding a pending drawn card), viewer `p1` sees the placeholder for `p0`'s
face-down card 1 and receives a null drawn card. -/
theorem c2_opponent_redaction_witness :
    (renderCards (trace5.players.getD 0 default)).getD 1 default =
      { suit := "back", value := "hidden", index := 1 } ∧
    (buildGameStatePayload trace5 "p1").drawnCard = none := by
  constructor
  · exact (c2_opponent_redaction trace5 "p1").2.1 (trace5.players.getD 0 default)
      (by decide) (by decide) 1 (by decide) (by decide)
  · by_contra hne
    exact absurd ((c2_opponent_redaction trace5 "p1").2.2.mp hne).2 (by decide)

/-- Two game states that differ at most in the identities of face-down hand
cards: all scalar fields, deck, discard pile and drawn card agree, the
players agree pairwise on userID and faceUp, and their hands agree at every
face-up index. -/
def statesAgreeOnVisible (s1 s2 : FullGameState) : Prop :=
  s1.phase = s2.phase ∧ s1.deck = s2.deck ∧ s1.discardPile = s2.discardPile ∧
  s1.currentTurnIdx = s2.currentTurnIdx ∧ s1.drawnCard = s2.drawnCard ∧
  s1.players.length = s2.players.length ∧
  ∀ k, k < s1.players.length →
    (s1.players.getD k default).userID = (s2.players.getD k default).userID ∧
    (s1.players.getD k default).faceUp = (s2.players.getD k default).faceUp ∧
    ∀ i, i < 6 → (s1.players.getD k default).faceUp.getD i false = true →
      (s1.players.getD k default).hand.getD i default =
        (s2.players.getD k default).hand.getD i default

instance statesAgreeOnVisibleDecidable (s1 s2 : FullGameState) :
    Decidable (statesAgreeOnVisible s1 s2) := by
  unfold statesAgreeOnVisible
  infer_instance

theorem renderCards_congr (p q : PlayerState)
    (hface : p.faceUp = q.faceUp)
    (hhand : ∀ i, i < 6 → p.faceUp.getD i false = true →
      p.hand.getD i default = q.hand.getD i default) :
    renderCards p = renderCards q := by
  unfold renderCards
  apply List.map_eq_map_iff.mpr
  intro i hmem
  rw [List.mem_range] at hmem
  by_cases hf : p.faceUp.getD i false = true
  · rw [hhand i hmem hf]
    rw [hface] at hf
    simp only [List.getD_eq_getElem?_getD] at hf
    simp [hf, hface]
  · have hf' : p.faceUp.getD i false = false := by simpa using hf
    have hq' : q.faceUp.getD i false = false := hface ▸ hf'
    simp only [List.getD_eq_getElem?_getD] at hf' hq'
    simp [hf', hq']

theorem assignCards_congr (v : String) :
    ∀ (l1 l2 : List PlayerState), l1.length = l2.length →
      (∀ k, k < l1.length →
        (l1.getD k default).userID = (l2.getD k default).userID ∧
        renderCards (l1.getD k default) = renderCards (l2.getD k default)) →
      ∀ acc, assignCards l1 v acc = assignCards l2 v acc
  | [], [], _, _, acc => rfl
  | [], b :: u, hlen, _, acc => by simp at hlen
  | a :: t, [], hlen, _, acc => by simp at hlen
  | a :: t, b :: u, hlen, hpt, acc => by
    have h0 := hpt 0 (by simp)
    simp only [List.getD_cons_zero] at h0
    have hrest : ∀ k, k < t.length →
        (t.getD k default).userID = (u.getD k default).userID ∧
        renderCards (t.getD k default) = renderCards (u.getD k default) := by
      intro k hk
      have := hpt (k + 1) (by simp; omega)
      simpa only [List.getD_cons_succ] using this
    have hlen' : t.length = u.length := by simpa using hlen
    simp only [assignCards, List.foldl_cons] at *
    rw [h0.1, h0.2]
    by_cases hb : b.userID = v
    · rw [if_pos hb]
      exact assignCards_congr v t u hlen' hrest (renderCards b, acc.2)
    · rw [if_neg hb]
      exact assignCards_congr v t u hlen' hrest (acc.1, renderCards b)

theorem currentPlayerID_congr (s1 s2 : FullGameState)
    (hcur : s1.currentTurnIdx = s2.currentTurnIdx)
    (hlen : s1.players.length = s2.players.length)
    (hpt : ∀ k, k < s1.players.length →
      (s1.players.getD k default).userID = (s2.players.getD k default).userID) :
    currentPlayerID s1 = currentPlayerID s2 := by
  unfold currentPlayerID
  rw [hlen, hcur]
  by_cases hpos : 0 < s2.players.length
  · rw [if_pos hpos, if_pos hpos]
    by_cases hin : s2.currentTurnIdx < s1.players.length
    · exact hcur ▸ hpt s2.currentTurnIdx (hcur ▸ hin)
    · have h1 : s1.players.length ≤ s2.currentTurnIdx := by omega
      have h2 : s2.players.length ≤ s2.currentTurnIdx := by omega
      rw [List.getD_eq_default _ _ h1, List.getD_eq_default _ _ h2]
  · rw [if_neg hpos, if_neg hpos]

/-- C10: every player's face-down cards — the viewer's own included — are
rendered as the `"back"`/`"hidden"` placeholder, and consequently the
per-viewer payload is a function of the visible information only: two game
states that differ solely in the identities of face-down hand cards produce
identical payloads for every viewer. -/
theorem c10_facedown_noninterference (s1 s2 : FullGameState) (v : String) :
    (∀ p, p ∈ s1.players → ∀ i, i < 6 → p.faceUp.getD i false = false →
      (renderCards p).getD i default =
        { suit := "back", value := "hidden", index := (i : Int) }) ∧
    (statesAgreeOnVisible s1 s2 →
      buildGameStatePayload s1 v = buildGameStatePayload s2 v) := by
  constructor
  · intro p _ i hi h
    exact renderCards_facedown p i hi h
  · intro hagree
    obtain ⟨hphase, hdeck, hdisc, hcur, hdrawn, hlen, hpt⟩ := hagree
    have hassign : assignCards s1.players v ([], []) = assignCards s2.players v ([], []) :=
      assignCards_congr v s1.players s2.players hlen
        (fun k hk => ⟨(hpt k hk).1,
          renderCards_congr _ _ (hpt k hk).2.1 (hpt k hk).2.2⟩) ([], [])
    have hcpid : currentPlayerID s1 = currentPlayerID s2 :=
      currentPlayerID_congr s1 s2 hcur hlen (fun k hk => (hpt k hk).1)
    simp only [buildGameStatePayload]
    rw [hphase, hdeck, hdisc, hcur, hdrawn, hcpid, hassign]

/-- The state `trace5` with the identity of `p1`'s face-down card 2
changed (its true suit/rank replaced by the queen of spades). -/
def trace5twin : FullGameState :=
  { trace5 with
    players := trace5.players.set 1
      { trace5.players.getD 1 default with
        hand := (trace5.players.getD 1 default).hand.set 2 ⟨"spades", "Q"⟩ } }

/-- C10 (witness): `trace5` and `trace5twin` are different states (a
face-down card differs) yet produce identical payloads, here for viewer
`p1` — the owner of the changed card — and the placeholder is rendered for
that card. -/
theorem c10_facedown_noninterference_witness :
    trace5 ≠ trace5twin ∧
    buildGameStatePayload trace5 "p1" = buildGameStatePayload trace5twin "p1" :=
  ⟨by decide, (c10_facedown_noninterference trace5 trace5twin "p1").2 (by decide)⟩
